import Mathlib

/-!
Shallow embedding of the decision/aggregation engine of `qft_interpreter.py`
(QFT-Interpreter-App): the classification rule `interpret_qft`, the delta
check `check_significant_change`, the previous-result lookup
`get_previous_result`, the report query `query_db_for_reports`, the batch
ingestion pipeline (`_parse_header`, `_process_row_data`, `_process_csv`,
`_process_excel`) and the two aggregation loops (`update_dashboard` and
`_generate_report`).  Real-valued concentrations are modelled as rationals;
Python strings are Lean `String`s.
-/

namespace QFT

/-- Python truthiness of a string: non-empty. -/
def pyTruthy (s : String) : Bool := !(s == "")

/-- Python's `str.strip()` whitespace set (ASCII core). -/
def pyIsSpace (c : Char) : Bool :=
  c == ' ' || c == '\t' || c == '\n' || c == '\r' || c == '\x0b' || c == '\x0c'

/-- Python's `str.strip()`: drop leading and trailing whitespace. -/
def pyStrip (s : String) : String :=
  ⟨((s.data.dropWhile pyIsSpace).reverse.dropWhile pyIsSpace).reverse⟩

/-- Tests whether `sub` is a character-wise prefix of `s`. -/
def prefixLC : List Char → List Char → Bool
  | [], _ => true
  | _ :: _, [] => false
  | a :: as, b :: bs => a == b && prefixLC as bs

/-- Tests whether `sub` occurs as a contiguous run inside `s`
(Python's `sub in s`). -/
def subLC (sub : List Char) : List Char → Bool
  | [] => prefixLC sub []
  | b :: bs => prefixLC sub (b :: bs) || subLC sub bs

/-- Python's substring test `sub in s` on strings. -/
def strContains (s sub : String) : Bool := subLC sub.data s.data

/-- Digit run to a natural number. -/
def digitsToNat (ds : List Char) : Nat :=
  ds.foldl (fun a c => a * 10 + (c.toNat - '0'.toNat)) 0

/-- Python's `float(s)` on an already-stripped string: the finite decimal
core (optional sign, digits with an optional dot, optional exponent);
`inf`/`nan` and digit underscores, which cannot arise in this pipeline,
are not modelled. -/
def pyFloat (s : String) : Option ℚ :=
  let cs := s.data
  let sgn : ℚ := match cs with
    | '-' :: _ => -1
    | _ => 1
  let cs := match cs with
    | '+' :: t => t
    | '-' :: t => t
    | t => t
  let intDigits := cs.takeWhile Char.isDigit
  let cs1 := cs.dropWhile Char.isDigit
  let fracDigits := match cs1 with
    | '.' :: t => t.takeWhile Char.isDigit
    | _ => []
  let cs2 := match cs1 with
    | '.' :: t => t.dropWhile Char.isDigit
    | t => t
  if intDigits.isEmpty && fracDigits.isEmpty then none
  else
    let expPart : Option Int := match cs2 with
      | [] => some 0
      | 'e' :: t | 'E' :: t =>
          let esgn : Int := match t with
            | '-' :: _ => -1
            | _ => 1
          let t2 := match t with
            | '+' :: u => u
            | '-' :: u => u
            | u => u
          let eds := t2.takeWhile Char.isDigit
          let rest := t2.dropWhile Char.isDigit
          if eds.isEmpty || !rest.isEmpty then none
          else some (esgn * (digitsToNat eds : Int))
      | _ => none
    match expPart with
    | none => none
    | some e =>
        let mant : ℚ :=
          (digitsToNat intDigits : ℚ) +
            (digitsToNat fracDigits : ℚ) / ((10 : ℚ) ^ fracDigits.length)
        let v : ℚ :=
          if 0 ≤ e then mant * (10 : ℚ) ^ e.toNat
          else mant / (10 : ℚ) ^ (-e).toNat
        some (sgn * v)

/-- Zero-pad a 3-digit fractional part. -/
def pad3 (n : Nat) : String :=
  if n < 10 then "00" ++ toString n
  else if n < 100 then "0" ++ toString n
  else toString n

/-- Python's `f"{x:.3f}"` on the rational model: round to 3 decimals and
render. -/
def fmt3 (x : ℚ) : String :=
  let n : Int := round (x * 1000)
  let sgnStr := if n < 0 then "-" else ""
  sgnStr ++ toString (n.natAbs / 1000) ++ "." ++ pad3 (n.natAbs % 1000)

/-- The dictionary returned by `interpret_qft`. -/
structure QftResult where
  result : String
  tb1_nil : ℚ
  tb2_nil : ℚ
  mit_nil : ℚ
  nil_25 : ℚ
  reason : String
  input_nil : ℚ
  input_tb1 : ℚ
  input_tb2 : ℚ
  input_mit : ℚ
  deriving DecidableEq, Repr

/-- Model of `interpret_qft(nil, tb1, tb2, mit)`: the core classification
rule. -/
def interpret_qft (nil tb1 tb2 mit : ℚ) : QftResult :=
  let tb1_minus_nil := tb1 - nil
  let tb2_minus_nil := tb2 - nil
  let mit_minus_nil := mit - nil
  let nil_25_percent := if nil ≥ 0 then 0.25 * nil else 0
  let rr : String × String :=
    if nil > 8.0 then
      ("IND*", "High Nil Control (" ++ fmt3 nil ++ " > 8.0 IU/mL)")
    else
      let is_tb1_pos := tb1_minus_nil ≥ 0.35 ∧ tb1_minus_nil ≥ nil_25_percent
      let is_tb2_pos := tb2_minus_nil ≥ 0.35 ∧ tb2_minus_nil ≥ nil_25_percent
      if is_tb1_pos then
        ("POS†", "TB1 Antigen positive (TB1-Nil=" ++ fmt3 tb1_minus_nil ++ " IU/mL)")
      else if is_tb2_pos then
        ("POS†", "TB2 Antigen positive (TB2-Nil=" ++ fmt3 tb2_minus_nil ++ " IU/mL)")
      else if mit_minus_nil ≥ 0.5 then
        ("NEG", "TB Antigens negative, Mitogen control valid")
      else
        ("IND*", "Low Mitogen Control (Mit-Nil=" ++ fmt3 mit_minus_nil ++
          " < 0.5 IU/mL difference)")
  { result := rr.1, tb1_nil := tb1_minus_nil, tb2_nil := tb2_minus_nil,
    mit_nil := mit_minus_nil, nil_25 := nil_25_percent, reason := rr.2,
    input_nil := nil, input_tb1 := tb1, input_tb2 := tb2, input_mit := mit }

/-- Model of `check_significant_change(prev_res, curr_res)`: the pairwise delta-check
encoding.  Membership of `(prev, curr)` or `(curr, prev)` in the literal
`significant_pairs` set is spelled out as the corresponding disjunction of
string equalities. -/
def check_significant_change (prev_res curr_res : String) : Bool :=
  if prev_res == curr_res then false
  else if (prev_res == "NEG" && curr_res == "POS†") ||
          (prev_res == "POS†" && curr_res == "NEG") ||
          (prev_res == "NEG" && curr_res == "IND*") ||
          (prev_res == "POS†" && curr_res == "IND*") ||
          (curr_res == "NEG" && prev_res == "POS†") ||
          (curr_res == "POS†" && prev_res == "NEG") ||
          (curr_res == "NEG" && prev_res == "IND*") ||
          (curr_res == "POS†" && prev_res == "IND*") then true
  else if prev_res == "IND*" && (curr_res == "POS†" || curr_res == "NEG") then true
  else if curr_res == "IND*" && (prev_res == "POS†" || prev_res == "NEG") then true
  else false

/-- A row of the `interpretations` table as fetched by
`query_db_for_reports`: `(timestamp, operator_id, run_id, sample_id,
result, reason)`. -/
structure DBRow where
  timestamp : String
  operator : String
  runId : String
  sampleId : String
  result : String
  reason : String
  deriving DecidableEq, Repr

/-- Number of days in month `m` of year `y` (Gregorian, as validated by
`datetime.strptime` with format `%Y-%m-%d`). -/
def daysInMonth (y m : Nat) : Nat :=
  if m == 2 then
    if (y % 4 == 0 && y % 100 != 0) || y % 400 == 0 then 29 else 28
  else if m == 4 || m == 6 || m == 9 || m == 11 then 30
  else 31

/-- Model of `datetime.strptime(s, "%Y-%m-%d")`: parses `s` as a calendar date,
`none` when the string is not a valid `YYYY-MM-DD` date (the `ValueError`
case). -/
def parseDate (s : String) : Option (Nat × Nat × Nat) :=
  match s.splitOn "-" with
  | [ys, ms, ds] =>
      if ys.data ≠ [] && ys.data.all Char.isDigit && ys.length == 4 &&
         ms.data ≠ [] && ms.data.all Char.isDigit && ms.length ≤ 2 &&
         ds.data ≠ [] && ds.data.all Char.isDigit && ds.length ≤ 2 then
        let y := digitsToNat ys.data
        let m := digitsToNat ms.data
        let d := digitsToNat ds.data
        if 1 ≤ y && 1 ≤ m && m ≤ 12 && 1 ≤ d && d ≤ daysInMonth y m then
          some (y, m, d)
        else none
      else none
  | _ => none

/-- Model of `query_db_for_reports(start_date_str, end_date_str)` over a modelled
table `db`: when both range strings parse as calendar dates it returns the
rows whose timestamp lies between `start 00:00:00` and `end 23:59:59`
(SQLite compares the TEXT timestamps lexicographically); when either
fails to parse, the `except ValueError` branch shows a date-error dialog
and returns the empty list. -/
def query_db_for_reports (db : List DBRow) (start_date_str end_date_str : String) :
    List DBRow :=
  match parseDate start_date_str, parseDate end_date_str with
  | some _, some _ =>
      let start_dt := start_date_str ++ " 00:00:00"
      let end_dt := end_date_str ++ " 23:59:59"
      db.filter (fun r => decide (start_dt ≤ r.timestamp ∧ r.timestamp ≤ end_dt))
  | _, _ => []

/-- The aggregation counters computed by `update_dashboard` and
`_generate_report`: total, category counts, and the indeterminate-reason
`Counter` entries `High Nil` / `Low Mitogen` / `Other`. -/
structure AggCounts where
  total : Nat
  pos : Nat
  neg : Nat
  ind : Nat
  highNil : Nat
  lowMit : Nat
  other : Nat
  deriving DecidableEq, Repr

/-- The aggregation loop of `update_dashboard`: category counts, with the
reason `Counter` updated only inside the `result == "IND*"` branch. -/
def dashboardAgg (data : List DBRow) : AggCounts :=
  data.foldl
    (fun c row =>
      if row.result == "POS†" then { c with pos := c.pos + 1 }
      else if row.result == "NEG" then { c with neg := c.neg + 1 }
      else if row.result == "IND*" then
        let c := { c with ind := c.ind + 1 }
        if strContains row.reason "High Nil" then { c with highNil := c.highNil + 1 }
        else if strContains row.reason "Low Mitogen" then { c with lowMit := c.lowMit + 1 }
        else { c with other := c.other + 1 }
      else c)
    { total := data.length, pos := 0, neg := 0, ind := 0,
      highNil := 0, lowMit := 0, other := 0 }

/-- The aggregation loop of `_generate_report`: the category `if/elif`
chain ends at `ind_count += 1`, and the reason `Counter` update that
follows is a separate top-level statement executed for every row. -/
def reportAgg (data : List DBRow) : AggCounts :=
  data.foldl
    (fun c row =>
      let c :=
        if row.result == "POS†" then { c with pos := c.pos + 1 }
        else if row.result == "NEG" then { c with neg := c.neg + 1 }
        else if row.result == "IND*" then { c with ind := c.ind + 1 }
        else c
      if strContains row.reason "High Nil" then { c with highNil := c.highNil + 1 }
      else if strContains row.reason "Low Mitogen" then { c with lowMit := c.lowMit + 1 }
      else { c with other := c.other + 1 })
    { total := data.length, pos := 0, neg := 0, ind := 0,
      highNil := 0, lowMit := 0, other := 0 }

/-- The data-dependent outcome of `_generate_report` before any export
dialog: an empty query result takes the `No Data` message path, otherwise
the summary counters are computed.  (`query_db_for_reports` never returns
`None`, so the `data is None` guard in the source is unreachable.) -/
inductive ReportOutcome where
  | noData : ReportOutcome
  | summary : AggCounts → ReportOutcome
  deriving DecidableEq, Repr

/-- The fetch-and-aggregate stage of `_generate_report`. -/
def generate_report_data (db : List DBRow) (start_date_str end_date_str : String) :
    ReportOutcome :=
  let data := query_db_for_reports db start_date_str end_date_str
  if data.isEmpty then ReportOutcome.noData
  else ReportOutcome.summary (reportAgg data)

/-- Opaque model of a `sqlite3.Error` raised by the persistence layer. -/
structure DbError where
  msg : String
  deriving DecidableEq

/-- Model of `get_previous_result(sample_id)`: the DB read either yields the most
recent `(result, timestamp)` row (or `None`), or raises `sqlite3.Error`;
the `except` branch logs and returns `None`. -/
def get_previous_result (dbRead : Except DbError (Option (String × String))) :
    Option (String × String) :=
  match dbRead with
  | Except.ok r => r
  | Except.error _ => none

/-- The column map built by `_parse_header`. -/
structure HeaderMap where
  sample_id : Nat
  nil : Nat
  tb1 : Nat
  tb2 : Nat
  mitogen : Nat
  deriving DecidableEq, Repr

/-- Intermediate state of `_parse_header`'s loop: each canonical header
index found so far (later duplicates overwrite earlier ones, as in the
Python dict assignment). -/
structure HeaderMapPartial where
  sample_id : Option Nat
  nil : Option Nat
  tb1 : Option Nat
  tb2 : Option Nat
  mitogen : Option Nat

/-- Model of `_parse_header(header_row)`: lower-case/strip each cell, map the
canonical names to their column indices; `none` (the `Header Error`
dialog and abort) when any required header is missing. -/
def parse_header (header_row : List String) : Option HeaderMap :=
  let step : HeaderMapPartial → Nat × String → HeaderMapPartial :=
    fun m p =>
      let h := (pyStrip p.2).toLower
      if h == "sample id" then { m with sample_id := some p.1 }
      else if h == "nil" then { m with nil := some p.1 }
      else if h == "tb1" then { m with tb1 := some p.1 }
      else if h == "tb2" then { m with tb2 := some p.1 }
      else if h == "mitogen" then { m with mitogen := some p.1 }
      else m
  let m := header_row.enum.foldl step ⟨none, none, none, none, none⟩
  match m.sample_id, m.nil, m.tb1, m.tb2, m.mitogen with
  | some a, some b, some c, some d, some e => some ⟨a, b, c, d, e⟩
  | _, _, _, _, _ => none

/-- Model of `_process_row_data(row_values, header_map, ...)`: index the five mapped
cells (an out-of-range index is the `IndexError` skip), strip them, skip on
a blank Sample ID, skip when any numeric cell fails `float(...)`, otherwise
run the Decision Engine.  In the batch path `run_interpretation` returns the
`interpret_qft` dictionary unchanged. -/
def process_row_data (hm : HeaderMap) (row_values : List String) : Option QftResult :=
  match row_values[hm.sample_id]?, row_values[hm.nil]?,
        row_values[hm.tb1]?, row_values[hm.tb2]?,
        row_values[hm.mitogen]? with
  | some sidc, some nilc, some tb1c, some tb2c, some mitc =>
      let sample_id := pyStrip sidc
      if sample_id == "" then none
      else
        match pyFloat (pyStrip nilc), pyFloat (pyStrip tb1c),
              pyFloat (pyStrip tb2c), pyFloat (pyStrip mitc) with
        | some n, some t1, some t2, some mv => some (interpret_qft n t1 t2 mv)
        | _, _, _, _ => none
  | _, _, _, _, _ => none

/-- The blank-row `continue` test of `_process_csv`: Python's `not any(row)`
holds exactly when every cell is the empty string. -/
def csvRowExcluded (row : List String) : Bool := !(row.any pyTruthy)

/-- The blank-row `continue` test of `_process_excel`: every cell is blank
after `str(v).strip()`. -/
def excelRowExcluded (row : List String) : Bool := !(row.any (fun v => pyTruthy (pyStrip v)))

/-- One iteration of the data-row loop shared by
`_process_csv`/`_process_excel`: a row passing the blank test is excluded
(`continue`); otherwise `_process_row_data` appends a result or bumps the
skip count. -/
def processStep (excludedTest : List String → Bool) (hm : HeaderMap)
    (acc : List QftResult × Nat) (row : List String) : List QftResult × Nat :=
  if excludedTest row then acc
  else
    match process_row_data hm row with
    | some r => (acc.1 ++ [r], acc.2)
    | none => (acc.1, acc.2 + 1)

/-- The accumulation loop shared by `_process_csv`/`_process_excel` over
the data rows (header already parsed).  Returns
`(processed_results, skipped)`. -/
def processRows (excludedTest : List String → Bool) (hm : HeaderMap)
    (rows : List (List String)) : List QftResult × Nat :=
  rows.foldl (processStep excludedTest hm) ([], 0)

/-- Model of `_process_csv(filepath, ...)` on the already-split rows: parse the
header (a header failure returns `([], 0, 0)`), process each data row, and
return `(processed_results, skipped, max(0, row_num - 1))`. -/
def process_csv (rows : List (List String)) : List QftResult × Nat × Nat :=
  match rows with
  | [] => ([], 0, 0)
  | header :: dataRows =>
      match parse_header header with
      | none => ([], 0, 0)
      | some hm =>
          let pr := processRows csvRowExcluded hm dataRows
          (pr.1, pr.2, dataRows.length)

/-- Model of `_process_excel(filepath, ...)` on the rows with `None` cells already
mapped to `''` and cells stringified, differing from the CSV path only in
the blank-row test. -/
def process_excel (rows : List (List String)) : List QftResult × Nat × Nat :=
  match rows with
  | [] => ([], 0, 0)
  | header :: dataRows =>
      match parse_header header with
      | none => ([], 0, 0)
      | some hm =>
          let pr := processRows excelRowExcluded hm dataRows
          (pr.1, pr.2, dataRows.length)

/-- Row rejected because a mapped column index is out of range
(`IndexError` in `_process_row_data`). -/
def tooFewColumns (hm : HeaderMap) (row : List String) : Bool :=
  row[hm.sample_id]?.isNone || row[hm.nil]?.isNone ||
  row[hm.tb1]?.isNone || row[hm.tb2]?.isNone ||
  row[hm.mitogen]?.isNone

/-- Row rejected because its Sample ID cell is blank after stripping. -/
def blankSampleId (hm : HeaderMap) (row : List String) : Bool :=
  match row[hm.sample_id]? with
  | some c => pyStrip c == ""
  | none => false

/-- Row rejected because some numeric cell fails `float(...)`. -/
def nonNumericCell (hm : HeaderMap) (row : List String) : Bool :=
  match row[hm.nil]?, row[hm.tb1]?, row[hm.tb2]?, row[hm.mitogen]? with
  | some a, some b, some c, some d =>
      (pyFloat (pyStrip a)).isNone || (pyFloat (pyStrip b)).isNone ||
      (pyFloat (pyStrip c)).isNone || (pyFloat (pyStrip d)).isNone
  | _, _, _, _ => false

/-- A data row is rejected by one of the three row-validation rules. -/
def rowRejected (hm : HeaderMap) (row : List String) : Bool :=
  tooFewColumns hm row || blankSampleId hm row || nonNumericCell hm row

/-- The three canonical category tokens produced by the engine. -/
def tokens : List String := ["NEG", "POS†", "IND*"]

/-- A persisted negative record, exactly as the engine itself would write
it (category `NEG`, the fixed negative reason text). -/
def negRow : DBRow :=
  ⟨"2024-01-01 10:00:00", "op1", "run1", "S1", "NEG",
    "TB Antigens negative, Mitogen control valid"⟩

/-- Header of the example batch table. -/
def exHeader : List String := ["Sample ID", "Nil", "TB1", "TB2", "Mitogen"]

/-- Column map of the example batch table. -/
def exHM : HeaderMap := ⟨0, 1, 2, 3, 4⟩

/-- The five data rows of the example batch table: row 3 has a blank
Sample ID and row 4 a non-numeric TB2 value. -/
def exRows : List (List String) :=
  [["S1", "0.10", "1.50", "0.20", "5.0"],
   ["S2", "0.20", "0.40", "2.00", "6.0"],
   ["", "0.10", "0.20", "0.30", "2.0"],
   ["S4", "0.10", "0.20", "abc", "2.0"],
   ["S5", "9.50", "10.0", "11.0", "15.0"]]

/-- A whitespace-only data row (cells blank after stripping, but not empty
strings). -/
def wsRow : List String := [" ", " ", " ", " ", " "]

theorem prefixLC_append (sub l t : List Char) (h : prefixLC sub l = true) :
    prefixLC sub (l ++ t) = true := by
  induction sub generalizing l with
  | nil => rfl
  | cons a as ih =>
      cases l with
      | nil => simp [prefixLC] at h
      | cons b bs =>
          simp only [prefixLC, Bool.and_eq_true] at h
          simpa [prefixLC, h.1] using ih bs h.2

theorem subLC_of_prefixLC (sub s : List Char) (h : prefixLC sub s = true) :
    subLC sub s = true := by
  cases s with
  | nil => simpa [subLC] using h
  | cons b bs => simp [subLC, h]

theorem strContains_of_prefix (pre suf sub : String)
    (h : prefixLC sub.data pre.data = true) :
    strContains (pre ++ suf) sub = true := by
  unfold strContains
  rw [String.data_append pre suf]
  exact subLC_of_prefixLC _ _ (prefixLC_append _ _ _ h)

theorem csc_iff (p c : String) :
    check_significant_change p c = true ↔ (p ∈ tokens ∧ c ∈ tokens ∧ p ≠ c) := by
  by_cases h1 : p = "NEG" <;> by_cases h2 : p = "POS†" <;> by_cases h3 : p = "IND*" <;>
  by_cases k1 : c = "NEG" <;> by_cases k2 : c = "POS†" <;> by_cases k3 : c = "IND*" <;>
  simp_all [check_significant_change, tokens]

/-- C5: on the three-value category domain `{NEG, POS†, IND*}`, the pairwise
significant-change encoding of `check_significant_change` is functionally
equivalent to simple inequality: it returns true iff the two categories
differ. -/
theorem delta_check_equiv_inequality (p c : String)
    (hp : p ∈ tokens) (hc : c ∈ tokens) :
    check_significant_change p c = true ↔ p ≠ c := by
  rw [csc_iff]
  simp [hp, hc]

/-- Witness for C5 at the concrete pair `("NEG", "POS†")`. -/
theorem delta_check_equiv_inequality_witness :
    "NEG" ∈ tokens ∧ "POS†" ∈ tokens ∧
      (check_significant_change "NEG" "POS†" = true ↔ "NEG" ≠ "POS†") :=
  ⟨by simp [tokens], by simp [tokens],
    delta_check_equiv_inequality "NEG" "POS†" (by simp [tokens]) (by simp [tokens])⟩

/-- C9: `check_significant_change` returns true exactly when both result
strings are canonical tokens of `{NEG, POS†, IND*}` and they differ; equal
strings are never flagged, and a pair with a string outside the token set
(such as an error placeholder) is never flagged. -/
theorem delta_check_true_characterization (p c : String) :
    check_significant_change p c = true ↔ (p ∈ tokens ∧ c ∈ tokens ∧ p ≠ c) :=
  csc_iff p c

theorem processRows_go (t : List String → Bool) (hm : HeaderMap) :
    ∀ (rows : List (List String)) (acc : List QftResult × Nat),
      rows.foldl (processStep t hm) acc =
        (acc.1 ++ (rows.filter (fun r => !t r)).filterMap (process_row_data hm),
         acc.2 + rows.countP (fun r => !t r && (process_row_data hm r).isNone))
  | [], acc => by simp
  | row :: rows, acc => by
      simp only [List.foldl_cons]
      by_cases ht : t row
      · rw [show processStep t hm acc row = acc by simp [processStep, ht]]
        rw [processRows_go t hm rows acc]
        simp [List.filter_cons, List.countP_cons, ht]
      · cases hp : process_row_data hm row with
        | some r =>
            rw [show processStep t hm acc row = (acc.1 ++ [r], acc.2) by
              simp [processStep, ht, hp]]
            rw [processRows_go t hm rows _]
            simp [List.filter_cons, List.countP_cons, ht, hp, List.filterMap_cons]
        | none =>
            rw [show processStep t hm acc row = (acc.1, acc.2 + 1) by
              simp [processStep, ht, hp]]
            rw [processRows_go t hm rows _]
            simp [List.filter_cons, List.countP_cons, ht, hp, List.filterMap_cons]
            omega

theorem processRows_spec (t : List String → Bool) (hm : HeaderMap)
    (rows : List (List String)) :
    processRows t hm rows =
      ((rows.filter (fun r => !t r)).filterMap (process_row_data hm),
       rows.countP (fun r => !t r && (process_row_data hm r).isNone)) := by
  unfold processRows
  rw [processRows_go t hm rows ([], 0)]
  simp

theorem counts_partition (t : List String → Bool) (hm : HeaderMap) :
    ∀ rows : List (List String),
      ((rows.filter (fun r => !t r)).filterMap (process_row_data hm)).length +
        rows.countP (fun r => !t r && (process_row_data hm r).isNone) +
        rows.countP t = rows.length
  | [] => by simp
  | row :: rows => by
      have ih := counts_partition t hm rows
      by_cases ht : t row
      · simp [List.filter_cons, List.countP_cons, ht]
        omega
      · cases hp : process_row_data hm row with
        | some r =>
            simp [List.filter_cons, List.countP_cons, ht, hp, List.filterMap_cons]
            omega
        | none =>
            simp [List.filter_cons, List.countP_cons, ht, hp, List.filterMap_cons]
            omega

theorem isNone_process_row_data (hm : HeaderMap) (row : List String) :
    (process_row_data hm row).isNone = rowRejected hm row := by
  unfold process_row_data rowRejected tooFewColumns blankSampleId nonNumericCell
  cases hs : row[hm.sample_id]? <;>
  cases h1 : row[hm.nil]? <;>
  cases h2 : row[hm.tb1]? <;>
  cases h3 : row[hm.tb2]? <;>
  cases h4 : row[hm.mitogen]? <;>
  simp only [Option.isNone_none, Option.isNone_some, Bool.true_or, Bool.or_true,
    Bool.false_or, Bool.or_false]
  case some.some.some.some.some sid a b c d =>
    by_cases hb : pyStrip sid == ""
    · simp [hb]
    · simp only [hb, Bool.false_or, if_neg (by simpa using hb)]
      cases hfa : pyFloat (pyStrip a) <;> cases hfb : pyFloat (pyStrip b) <;>
      cases hfc : pyFloat (pyStrip c) <;> cases hfd : pyFloat (pyStrip d) <;>
      simp


theorem countP_congr_local {α : Type} (p q : α → Bool) :
    ∀ l : List α, (∀ a ∈ l, p a = q a) → l.countP p = l.countP q
  | [], _ => rfl
  | a :: l, h => by
      have ha := h a (by simp)
      have ih := countP_congr_local p q l (fun b hb => h b (by simp [hb]))
      simp [List.countP_cons, ha, ih]

theorem strContains_prefix2 (a s t sub : String) (h : prefixLC sub.data a.data = true) :
    strContains ((a ++ s) ++ t) sub = true := by
  apply strContains_of_prefix
  rw [String.data_append a s]
  exact prefixLC_append _ _ _ h

/-- C3: for every `nil > 8.0` the classification is Indeterminate (token
`IND*`) with a reason containing "High Nil", regardless of the antigen and
mitogen values. -/
theorem high_nil_indeterminate (nil tb1 tb2 mit : ℚ) (h : nil > 8.0) :
    (interpret_qft nil tb1 tb2 mit).result = "IND*" ∧
    strContains (interpret_qft nil tb1 tb2 mit).reason "High Nil" = true := by
  simp only [interpret_qft]
  rw [if_pos h]
  exact ⟨rfl, strContains_prefix2 "High Nil Control (" (fmt3 nil) " > 8.0 IU/mL)" "High Nil"
    (by with_unfolding_all decide)⟩

/-- Witness for C3 at `nil = 9`. -/
theorem high_nil_indeterminate_witness :
    (9:ℚ) > 8.0 ∧
    ((interpret_qft 9 0 0 0).result = "IND*" ∧
      strContains (interpret_qft 9 0 0 0).reason "High Nil" = true) :=
  ⟨by norm_num, high_nil_indeterminate 9 0 0 0 (by norm_num)⟩

/-- C4: with `nil ≤ 8.0`, whenever TB1 satisfies both positivity
conditions the result is Positive (token `POS†`) and the reason cites TB1,
for all values of `tb2` and `mitogen` — in particular even when TB2 would
also qualify. -/
theorem tb1_positive_first (nil tb1 tb2 mit : ℚ) (h8 : nil ≤ 8.0)
    (h35 : tb1 - nil ≥ 0.35) (h25 : tb1 - nil ≥ 0.25 * nil) :
    (interpret_qft nil tb1 tb2 mit).result = "POS†" ∧
    strContains (interpret_qft nil tb1 tb2 mit).reason "TB1" = true := by
  simp only [interpret_qft]
  rw [if_neg (not_lt.mpr h8)]
  have hcond : tb1 - nil ≥ 0.35 ∧ tb1 - nil ≥ (if nil ≥ 0 then 0.25 * nil else 0) := by
    refine ⟨h35, ?_⟩
    split
    · exact h25
    · linarith [show (0:ℚ) ≤ 0.35 by norm_num]
  rw [if_pos hcond]
  exact ⟨rfl, strContains_prefix2 "TB1 Antigen positive (TB1-Nil=" (fmt3 (tb1 - nil)) " IU/mL)"
    "TB1" (by with_unfolding_all decide)⟩

/-- Witness for C4 at `nil = 0.10, tb1 = 0.45, tb2 = 0.60, mit = 3.0`
(TB2 also satisfies both positivity conditions there). -/
theorem tb1_positive_first_witness :
    ((0.10:ℚ) ≤ 8.0 ∧ (0.45:ℚ) - 0.10 ≥ 0.35 ∧ (0.45:ℚ) - 0.10 ≥ 0.25 * 0.10) ∧
    ((interpret_qft 0.10 0.45 0.60 3.0).result = "POS†" ∧
      strContains (interpret_qft 0.10 0.45 0.60 3.0).reason "TB1" = true) :=
  ⟨⟨by norm_num, by norm_num, by norm_num⟩,
    tb1_positive_first 0.10 0.45 0.60 3.0 (by norm_num) (by norm_num) (by norm_num)⟩

/-- C1 (code bug): on a single self-generated negative record the dashboard
aggregation and the report aggregation disagree on the indeterminate
sub-reason counters — the report's `Counter` update is applied to every
row, not only to `IND*` rows — while the category counts still agree. -/
theorem report_subreason_divergence :
    (dashboardAgg [negRow]).total = 1 ∧ (reportAgg [negRow]).total = 1 ∧
    (dashboardAgg [negRow]).neg = 1 ∧ (reportAgg [negRow]).neg = 1 ∧
    (dashboardAgg [negRow]).ind = 0 ∧ (reportAgg [negRow]).ind = 0 ∧
    (dashboardAgg [negRow]).other = 0 ∧ (reportAgg [negRow]).other = 1 ∧
    dashboardAgg [negRow] ≠ reportAgg [negRow] := by
  with_unfolding_all decide

/-- C7 (counterexample): with an unparsable start date the query completes
and returns the empty list, and the report call completes through its
no-data path — no `DateFormatError` reaches the caller. -/
theorem date_error_completes_counterexample :
    parseDate "2024-02-31" = none ∧
    query_db_for_reports [⟨"2024-03-01 09:00:00", "op1", "run1", "S1", "NEG", "r"⟩]
        "2024-02-31" "2024-03-02" = [] ∧
    generate_report_data [⟨"2024-03-01 09:00:00", "op1", "run1", "S1", "NEG", "r"⟩]
        "2024-02-31" "2024-03-02" = ReportOutcome.noData := by
  with_unfolding_all decide

/-- C7 (amended): when either range string fails to parse as a calendar
date, `query_db_for_reports` returns the empty list (after showing a date
-error dialog) and `_generate_report` completes through its no-data path;
the error is not propagated to the caller as a failure. -/
theorem date_error_returns_empty (db : List DBRow) (s e : String)
    (h : parseDate s = none ∨ parseDate e = none) :
    query_db_for_reports db s e = [] ∧
    generate_report_data db s e = ReportOutcome.noData := by
  have hq : query_db_for_reports db s e = [] := by
    unfold query_db_for_reports
    rcases h with h | h
    · rw [h]
    · rw [h]
      cases parseDate s <;> rfl
  refine ⟨hq, ?_⟩
  unfold generate_report_data
  rw [hq]
  rfl

/-- Witness for C7's amended statement at a concrete unparsable date. -/
theorem date_error_returns_empty_witness :
    (parseDate "2024-13-01" = none ∨ parseDate "2024-12-01" = none) ∧
    (query_db_for_reports [negRow] "2024-13-01" "2024-12-01" = [] ∧
      generate_report_data [negRow] "2024-13-01" "2024-12-01" = ReportOutcome.noData) :=
  ⟨Or.inl (by with_unfolding_all decide),
    date_error_returns_empty [negRow] "2024-13-01" "2024-12-01"
      (Or.inl (by with_unfolding_all decide))⟩

/-- C8 (counterexample): a persistence failure during the delta-check's
latest-record read yields exactly the same caller-visible value as the
absence of any prior record — the error is not surfaced to the caller. -/
theorem persistence_error_counterexample :
    get_previous_result (Except.error ⟨"disk I/O error"⟩) =
      get_previous_result (Except.ok none) ∧
    get_previous_result (Except.error ⟨"disk I/O error"⟩) = none :=
  ⟨rfl, rfl⟩

/-- C8 (amended): every `sqlite3.Error` raised by the latest-record read is
caught inside `get_previous_result`, logged, and mapped to `None` — the
same value returned when no prior record exists; no failure propagates. -/
theorem persistence_error_swallowed (e : DbError) :
    get_previous_result (Except.error e) = none := rfl

/-- Witness for C8's amended statement at a concrete persistence error. -/
theorem persistence_error_swallowed_witness :
    get_previous_result (Except.error ⟨"database is locked"⟩) = none :=
  persistence_error_swallowed ⟨"database is locked"⟩

/-- C2 (amended): every classification carries exactly one of the textual
tokens `POS†` (Positive), `NEG` (Negative), `IND*` (Indeterminate); the
dashboard aggregation counts a single-record history into exactly one
category bucket for these tokens and into none for any other string, and
the delta check only fires on these tokens. -/
theorem category_tokens_canonical :
    (∀ nil tb1 tb2 mit : ℚ, (interpret_qft nil tb1 tb2 mit).result ∈ tokens) ∧
    (∀ row : DBRow, row.result ∈ tokens →
      (dashboardAgg [row]).pos + (dashboardAgg [row]).neg + (dashboardAgg [row]).ind = 1) ∧
    (∀ row : DBRow, row.result ∉ tokens →
      (dashboardAgg [row]).pos + (dashboardAgg [row]).neg + (dashboardAgg [row]).ind = 0) ∧
    (∀ p c : String, check_significant_change p c = true → p ∈ tokens ∧ c ∈ tokens) := by
  refine ⟨?_, ?_, ?_, ?_⟩
  · intro nil tb1 tb2 mit
    simp only [interpret_qft]
    split_ifs <;> simp [tokens]
  · intro row h
    simp only [tokens, List.mem_cons, List.not_mem_nil, or_false] at h
    rcases h with h | h | h <;>
      (simp [dashboardAgg, h]; try (split_ifs <;> rfl))
  · intro row h
    simp only [tokens, List.mem_cons, List.not_mem_nil, or_false] at h
    push_neg at h
    simp [dashboardAgg, h.1, h.2.1, h.2.2]
  · intro p c h
    have hc := (csc_iff p c).mp h
    exact ⟨hc.1, hc.2.1⟩

/-- C6: for every CSV batch table with a valid header, `total` is the
number of data rows, `skipped` counts exactly the non-blank rows rejected
by a validation rule (too few columns, blank Sample ID, or a non-numeric
cell), and the processed outcome has `total - blankExcluded - skipped`
entries. -/
theorem batch_csv_counts (header : List String) (rows : List (List String))
    (hm : HeaderMap) (h : parse_header header = some hm) :
    (process_csv (header :: rows)).2.2 = rows.length ∧
    (process_csv (header :: rows)).2.1 =
      rows.countP (fun r => !csvRowExcluded r && rowRejected hm r) ∧
    (process_csv (header :: rows)).1.length =
      rows.length - rows.countP csvRowExcluded -
        rows.countP (fun r => !csvRowExcluded r && rowRejected hm r) := by
  have hcnt : rows.countP (fun r => !csvRowExcluded r && (process_row_data hm r).isNone) =
      rows.countP (fun r => !csvRowExcluded r && rowRejected hm r) :=
    countP_congr_local _ _ rows (fun r _ => by rw [isNone_process_row_data])
  have hpart := counts_partition csvRowExcluded hm rows
  unfold process_csv
  dsimp only
  rw [h]
  dsimp only
  rw [processRows_spec]
  dsimp only
  refine ⟨rfl, hcnt, ?_⟩
  rw [← hcnt]
  omega

/-- Witness for C6 on the example table: 5 data rows of which one has a
blank Sample ID and one a non-numeric TB2 value give `total = 5`,
`skipped = 2` and 3 processed entries. -/
theorem batch_csv_counts_witness :
    parse_header exHeader = some exHM ∧
    (process_csv (exHeader :: exRows)).2.2 = 5 ∧
    (process_csv (exHeader :: exRows)).2.1 = 2 ∧
    (process_csv (exHeader :: exRows)).1.length = 3 := by
  have h : parse_header exHeader = some exHM := by with_unfolding_all decide
  have hc := batch_csv_counts exHeader exRows exHM h
  refine ⟨h, ?_, ?_, ?_⟩
  · rw [hc.1]
    rfl
  · rw [hc.2.1]
    with_unfolding_all decide
  · rw [hc.2.2]
    with_unfolding_all decide

/-- C10: in the CSV path a data row is silently excluded (counted in
total, in neither processed nor skipped) exactly when every cell is the
empty string; a whitespace-only row is not excluded — its row processing
fails (via the blank Sample ID once the columns are indexable) so it is
counted as skipped — whereas the Excel path strips cells before the
blank test and silently excludes such a row. -/
theorem blank_row_semantics :
    (∀ row : List String, csvRowExcluded row = row.all (fun c => c == "")) ∧
    (∀ (header : List String) (rows : List (List String)) (hm : HeaderMap),
      parse_header header = some hm →
      (process_csv (header :: rows)).1.length + (process_csv (header :: rows)).2.1 +
        rows.countP csvRowExcluded = rows.length) ∧
    (∀ (hm : HeaderMap) (row : List String), (∀ c ∈ row, pyStrip c = "") →
      row.any pyTruthy = true →
      csvRowExcluded row = false ∧ process_row_data hm row = none ∧
      (tooFewColumns hm row = false → blankSampleId hm row = true)) ∧
    (∀ row : List String, (∀ c ∈ row, pyStrip c = "") → excelRowExcluded row = true) := by
  refine ⟨?_, ?_, ?_, ?_⟩
  · intro row
    rw [List.all_eq_not_any_not]
    rfl
  · intro header rows hm h
    have hpart := counts_partition csvRowExcluded hm rows
    unfold process_csv
    dsimp only
    rw [h]
    dsimp only
    rw [processRows_spec]
    dsimp only
    exact hpart
  · intro hm row hw ha
    refine ⟨by simp [csvRowExcluded, ha], ?_, ?_⟩
    · cases hs : row[hm.sample_id]? with
      | none =>
          cases h1 : row[hm.nil]? <;> cases h2 : row[hm.tb1]? <;>
          cases h3 : row[hm.tb2]? <;> cases h4 : row[hm.mitogen]? <;>
          simp [process_row_data, hs, h1, h2, h3, h4]
      | some c =>
          have hc : pyStrip c = "" := hw c (List.getElem?_mem hs)
          cases h1 : row[hm.nil]? <;> cases h2 : row[hm.tb1]? <;>
          cases h3 : row[hm.tb2]? <;> cases h4 : row[hm.mitogen]? <;>
          simp [process_row_data, hs, h1, h2, h3, h4, hc]
    · intro htf
      cases hs : row[hm.sample_id]? with
      | none => simp [tooFewColumns, hs] at htf
      | some c => simp [blankSampleId, hs, hw c (List.getElem?_mem hs)]
  · intro row hw
    have hany : row.any (fun v => pyTruthy (pyStrip v)) = false := by
      rw [List.any_eq_false]
      intro c hc
      simp [pyTruthy, hw c hc]
    simp [excelRowExcluded, hany]

/-- Witness for C10 on the example table and a concrete whitespace-only
row. -/
theorem blank_row_semantics_witness :
    (csvRowExcluded wsRow = wsRow.all (fun c => c == "")) ∧
    ((process_csv (exHeader :: exRows)).1.length + (process_csv (exHeader :: exRows)).2.1 +
      exRows.countP csvRowExcluded = exRows.length) ∧
    (csvRowExcluded wsRow = false ∧ process_row_data exHM wsRow = none ∧
      (tooFewColumns exHM wsRow = false → blankSampleId exHM wsRow = true)) ∧
    excelRowExcluded wsRow = true :=
  ⟨blank_row_semantics.1 wsRow,
   blank_row_semantics.2.1 exHeader exRows exHM (by with_unfolding_all decide),
   blank_row_semantics.2.2.1 exHM wsRow (by with_unfolding_all decide)
     (by with_unfolding_all decide),
   blank_row_semantics.2.2.2 wsRow (by with_unfolding_all decide)⟩

/-- C2 (counterexample): the persisted category token for a high-nil panel
is `IND*`, which is none of the claimed tokens `POS`/`NEG`/`IND`. -/
theorem category_token_counterexample :
    (interpret_qft 10 0 0 0).result = "IND*" ∧
    ¬((interpret_qft 10 0 0 0).result = "POS" ∨ (interpret_qft 10 0 0 0).result = "NEG" ∨
      (interpret_qft 10 0 0 0).result = "IND") := by
  with_unfolding_all decide

/-- Witness for C2's amended statement on concrete single-record
histories and the pair `("NEG", "POS†")`. -/
theorem category_tokens_canonical_witness :
    ((dashboardAgg [negRow]).pos + (dashboardAgg [negRow]).neg +
      (dashboardAgg [negRow]).ind = 1) ∧
    ((dashboardAgg [⟨"2024-01-01 10:00:00", "op1", "run1", "S1", "Error", "x"⟩]).pos +
      (dashboardAgg [⟨"2024-01-01 10:00:00", "op1", "run1", "S1", "Error", "x"⟩]).neg +
      (dashboardAgg [⟨"2024-01-01 10:00:00", "op1", "run1", "S1", "Error", "x"⟩]).ind = 0) ∧
    ("NEG" ∈ tokens ∧ "POS†" ∈ tokens) :=
  ⟨category_tokens_canonical.2.1 negRow (by simp [tokens, negRow]),
   category_tokens_canonical.2.2.1 ⟨"2024-01-01 10:00:00", "op1", "run1", "S1", "Error", "x"⟩
     (by simp [tokens]),
   category_tokens_canonical.2.2.2 "NEG" "POS†" (by rfl)⟩

end QFT
